import Mathlib

/-!
Shallow embedding of the tx-commitment-soundness repository (three Python
entry points: `src/txbatch.py`, `src/txapp.py`, `src/tx_batch_auditor.py`).

Strings are modelled as `List Char`; Python `bytes` values as `List Nat`
with every element below 256; Python `int` as `Int` (arbitrary precision,
possibly negative).  A Python function that can raise an exception is
modelled with `Option` / `Except`: `none` / `.error` stands for the raised
exception.  `Web3.keccak` is an external library call (Keccak-256); the
embedding is parametric in it (`Keccak` below), so every theorem holds for
the actual hash function.
-/

/-- Python strings, as lists of characters. -/
abbrev Str := List Char

/-- One byte of a Python `bytes` value (an element of 0..255). -/
abbrev Byte := Nat

/-- The type of the external `Web3.keccak` hash (bytes to 32-byte digest). -/
abbrev Keccak := List Byte → List Byte

/-- Value of one hexadecimal digit character (`0-9`, `a-f`, `A-F`), as in
Python's hex parsing; `none` for every other character. -/
def hexDigitVal (c : Char) : Option Nat :=
  if 48 ≤ c.toNat ∧ c.toNat ≤ 57 then some (c.toNat - 48)
  else if 97 ≤ c.toNat ∧ c.toNat ≤ 102 then some (c.toNat - 87)
  else if 65 ≤ c.toNat ∧ c.toNat ≤ 70 then some (c.toNat - 55)
  else none

/-- Whether a character is a hexadecimal digit. -/
def isHexDigitC (c : Char) : Bool :=
  (hexDigitVal c).isSome

/-- Big-endian byte encoding of a natural number into exactly `len` bytes
(most significant byte first), as produced by Python's
`int.to_bytes(len, "big")` on an in-range value. -/
def beBytes : Nat → Nat → List Byte
  | 0, _ => []
  | n + 1, v => beBytes n (v / 256) ++ [v % 256]

/-- Python `int.to_bytes(len, "big")` (unsigned): `none` models the
`OverflowError` raised when the value is negative or does not fit. -/
def int_to_bytes (v : Int) (len : Nat) : Option (List Byte) :=
  if 0 ≤ v ∧ v < (256 : Int) ^ len then some (beBytes len v.toNat) else none

/-- Python `bytes.fromhex`: pairs of hex digits, with ASCII spaces allowed
between pairs; `none` models the raised `ValueError`. -/
def fromhex : Str → Option (List Byte)
  | [] => some []
  | c :: r =>
    if c.toNat = 32 then fromhex r
    else
      match r with
      | [] => none
      | c2 :: r2 =>
        match hexDigitVal c, hexDigitVal c2 with
        | some hi, some lo => (fromhex r2).map (fun bs => (hi * 16 + lo) :: bs)
        | _, _ => none

/-- Lowercase hex character for a value below 16. -/
def hexChar (n : Nat) : Char :=
  if n < 10 then Char.ofNat (48 + n) else Char.ofNat (87 + n)

/-- Python `bytes.hex()`: lowercase hex rendering of a byte string. -/
def bytesToHex (bs : List Byte) : Str :=
  bs.foldr (fun b acc => hexChar (b / 16) :: hexChar (b % 16) :: acc) []

/-- The 57-byte preimage exactly as the specification words it: big-endian,
concatenated in this order with no delimiters: chainId (8 bytes), txHash
(32 bytes), blockNumber (8 bytes), status (1 byte), gasUsed (8 bytes). -/
def specPreimage (chainId : Nat) (txHashBytes : List Byte)
    (blockNumber status gasUsed : Nat) : List Byte :=
  beBytes 8 chainId ++ txHashBytes ++ beBytes 8 blockNumber ++
    beBytes 1 status ++ beBytes 8 gasUsed

/-- Python whitespace characters stripped by `str.strip()` and `int()`
(ASCII subset: space, tab, newline, vertical tab, form feed, carriage
return). -/
def isPyWs (c : Char) : Bool :=
  c.toNat == 32 || c.toNat == 9 || c.toNat == 10 ||
    c.toNat == 11 || c.toNat == 12 || c.toNat == 13

/-- Python `str.strip()`: remove leading and trailing whitespace. -/
def pystrip (l : Str) : Str :=
  ((l.dropWhile isPyWs).reverse.dropWhile isPyWs).reverse

/-- Python `str.lower()` (ASCII behaviour). -/
def pylower (s : Str) : Str := s.map Char.toLower

/-- Order-preserving de-duplication (first occurrence wins), as done by the
`seen` set loop in `txbatch.load_hashes` and by `dict.fromkeys` in
`tx_batch_auditor.main`. -/
def dedupAux (seen : List Str) : List Str → List Str
  | [] => []
  | h :: t => if h ∈ seen then dedupAux seen t else h :: dedupAux (h :: seen) t

/-- De-duplicate a hash list, preserving first-seen order. -/
def dedup (l : List Str) : List Str := dedupAux [] l

/-- Drop one leading sign character (`+`, code 43, or `-`, code 45), as
Python's `int()` parser does after stripping whitespace. -/
def dropSign : Str → Str
  | [] => []
  | c :: r => if c.toNat = 43 ∨ c.toNat = 45 then r else c :: r

/-- Consume an optional `0x` / `0X` base marker, as Python's `int(s, 16)`
does; returns whether a marker was consumed and the remaining characters. -/
def dropHexMark : Str → Bool × Str
  | c0 :: c1 :: r =>
    if c0.toNat = 48 ∧ (c1.toNat = 120 ∨ c1.toNat = 88) then (true, r)
    else (false, c0 :: c1 :: r)
  | l => (false, l)

/-- Drop one underscore (code 95), allowed by Python's `int()` directly
after the `0x` base marker. -/
def dropLeadUnderscore : Str → Str
  | [] => []
  | c :: r => if c.toNat = 95 then r else c :: r

/-- Tail of a Python digit group: hexadecimal digits with single
underscores allowed only between digits (no trailing or doubled
underscore). -/
def pyHexTail : Str → Bool
  | [] => true
  | c :: r =>
    if c.toNat = 95 then
      match r with
      | [] => false
      | c2 :: r2 => isHexDigitC c2 && pyHexTail r2
    else isHexDigitC c && pyHexTail r

/-- A non-empty Python hexadecimal digit group (underscores between
digits). -/
def pyHexDigits : Str → Bool
  | [] => false
  | c :: r =>
    if c.toNat = 95 then false
    else isHexDigitC c && pyHexTail r

/-- Whether Python's `int(s, 16)` succeeds on `s` (ASCII model): optional
surrounding whitespace, optional sign, optional `0x`/`0X` marker (with an
optional underscore directly after it), then a non-empty digit group. -/
def pyIntHex16Ok (s : Str) : Bool :=
  let s1 := pystrip s
  let s2 := dropSign s1
  let pr := dropHexMark s2
  let s3 := if pr.fst then dropLeadUnderscore pr.snd else pr.snd
  pyHexDigits s3

/-- Python `h.startswith("0x")` (codes 48 then 120, case-sensitive). -/
def startsWith0x : Str → Bool
  | c0 :: c1 :: _ => (c0.toNat == 48) && (c1.toNat == 120)
  | _ => false

/-- Canonical transaction-hash shape exactly as the specification words
it: the character `0` then `x` followed by exactly 64 hexadecimal
characters, 66 characters in total. -/
def isCanonicalTxHash (h : Str) : Bool :=
  match h with
  | c0 :: c1 :: tl =>
    (c0.toNat == 48) && (c1.toNat == 120) && (tl.length == 64) &&
      tl.all isHexDigitC
  | _ => false

/-- Model of `eth_utils.is_hex` as called by `Web3.is_hex`: a string whose
lowercase form is `0x`, or a non-empty full match of the pattern of an
optional `0x`/`0X` marker followed by hexadecimal digits of either case. -/
def is_hex (s : Str) : Bool :=
  if pylower s = ['0', 'x'] then true
  else if s = [] then false
  else
    s.all isHexDigitC ||
      (match s with
       | c0 :: c1 :: r =>
         (c0.toNat == 48) && (c1.toNat == 120 || c1.toNat == 88) &&
           r.all isHexDigitC
       | _ => false)

namespace txbatch

/-- A Python exception as seen by `safe_rpc_call`: either the provider
library's `TransactionNotFound` or any other `Exception` (tagged with a
code so distinct errors are distinguishable). -/
inductive Exc where
  | transactionNotFound
  | other (code : Nat)
deriving DecidableEq

/-- Outcome of one invocation of the wrapped function inside
`safe_rpc_call`: a returned value, a raised `KeyboardInterrupt`, or a
raised `Exception`. -/
inductive CallRes (α : Type) where
  | ok (a : α)
  | interrupt
  | exc (e : Exc)

/-- Outcome of a whole `safe_rpc_call` run: a returned value, a propagated
`KeyboardInterrupt`, a re-raised final `Exception`, or the implicit `None`
return when `retries` is zero and the loop body never runs. -/
inductive RunRes (α : Type) where
  | ok (a : α)
  | interrupt
  | raised (e : Exc)
  | fellThrough
deriving DecidableEq

/-- Trace of a `safe_rpc_call` run: its outcome, how many times the
wrapped function was invoked, and how many times `time.sleep(delay)`
ran. -/
structure RunTrace (α : Type) where
  result : RunRes α
  calls : Nat
  sleeps : Nat
deriving DecidableEq

/-- The `for attempt in range(1, retries + 1)` loop of
`txbatch.safe_rpc_call`, lines 29-41: invoke the function; return its
value on success; propagate `KeyboardInterrupt`; on any other exception
re-raise if this was the last attempt, otherwise sleep and go round again.
`left` counts the attempts still available (so `left = 1` means
`attempt == retries`). -/
def safe_go (func : Nat → CallRes α) (attempt : Nat) : Nat → RunTrace α
  | 0 => ⟨.fellThrough, 0, 0⟩
  | left + 1 =>
    match func attempt with
    | .ok a => ⟨.ok a, 1, 0⟩
    | .interrupt => ⟨.interrupt, 1, 0⟩
    | .exc e =>
      match left with
      | 0 => ⟨.raised e, 1, 0⟩
      | l + 1 =>
        let t := safe_go func (attempt + 1) (l + 1)
        ⟨t.result, t.calls + 1, t.sleeps + 1⟩

/-- `txbatch.safe_rpc_call(func, retries=retries)`: attempts are numbered
1 to `retries`, exactly as in the Python loop. -/
def safe_rpc_call (func : Nat → CallRes α) (retries : Nat) : RunTrace α :=
  safe_go func 1 retries

/-- Payload of `txbatch.build_commitment`, lines 75-81: the left-to-right
concatenation of the five encoded fields; `none` models an exception
raised by any `to_bytes` or by `bytes.fromhex`. -/
def payload (chain_id : Int) (tx_hash_hex : Str)
    (block_number status gas_used : Int) : Option (List Byte) :=
  match int_to_bytes chain_id 8, fromhex (tx_hash_hex.drop 2),
      int_to_bytes block_number 8, int_to_bytes status 1,
      int_to_bytes gas_used 8 with
  | some a, some b, some c, some d, some e => some (a ++ b ++ c ++ d ++ e)
  | _, _, _, _, _ => none

/-- `txbatch.build_commitment`, lines 65-82: keccak of the payload,
rendered as `"0x"` plus lowercase hex. -/
def build_commitment (keccak : Keccak) (chain_id : Int) (tx_hash_hex : Str)
    (block_number status gas_used : Int) : Option Str :=
  (payload chain_id tx_hash_hex block_number status gas_used).map
    (fun p => '0' :: 'x' :: bytesToHex (keccak p))

/-- `txbatch.parse_tx_hash`, lines 53-62: strip, reject empty, prepend
`0x` when missing, then require 66 characters and `Web3.is_hex`. -/
def parse_tx_hash (h : Str) : Option Str :=
  let h1 := pystrip h
  if h1 = [] then none
  else
    let h2 := if startsWith0x h1 then h1 else '0' :: 'x' :: h1
    if (h2.length == 66) && is_hex h2 then some h2 else none

/-- What a provider eventually yields for one transaction, after the
retry wrapper has run its course: a terminal `TransactionNotFound`, a
persistent other failure, or the receipt's fields
(blockNumber, status, gasUsed). -/
inductive RpcData where
  | notFound
  | rpcError
  | receipt (block_number status gas_used : Int)

/-- One connected provider of `txbatch.main`: its chain id and its
per-transaction data. -/
structure Provider where
  chain_id : Int
  data : Str → RpcData

/-- How `fetch_bundle` fails, as distinguished by the `except` clauses of
`txbatch.main` (lines 269-276): `TransactionNotFound` versus any other
exception. -/
inductive FetchErr where
  | notFound
  | other
deriving DecidableEq

/-- The bundle dictionary built by `txbatch.fetch_bundle` (the fields the
main loop reads). -/
structure Bundle where
  chain_id : Int
  block_number : Int
  status : Int
  gas_used : Int
  commitment : Str
deriving DecidableEq

/-- `txbatch.fetch_bundle`, lines 85-126: propagate `TransactionNotFound`
and other fetch errors; otherwise read the receipt fields and compute the
commitment (an `OverflowError` inside `build_commitment` propagates as a
generic exception, line 103 being outside the `try` block). -/
def fetch_bundle (keccak : Keccak) (p : Provider) (txh : Str) :
    Except FetchErr Bundle :=
  match p.data txh with
  | .notFound => .error .notFound
  | .rpcError => .error .other
  | .receipt bn st gu =>
    match build_commitment keccak p.chain_id txh bn st gu with
    | none => .error .other
    | some cm => .ok ⟨p.chain_id, bn, st, gu, cm⟩

/-- The five field comparisons of the cross-check block,
lines 291-306. -/
def cross_check (b1 b2 : Bundle) : Bool :=
  if b1.chain_id = b2.chain_id ∧ b1.block_number = b2.block_number ∧
      b1.status = b2.status ∧ b1.gas_used = b2.gas_used ∧
      b1.commitment = b2.commitment then true else false

/-- The `match` flag after the secondary-provider block of the main loop,
lines 285-316: `true` with no secondary configured; otherwise the
cross-check result, with any secondary failure (not-found or error)
setting it to `false`. -/
def cross_note (keccak : Keccak) (sec : Option Provider) (t : Str)
    (b : Bundle) : Bool :=
  match sec with
  | none => true
  | some q =>
    match fetch_bundle keccak q t with
    | .ok b2 => cross_check b b2
    | .error _ => false

/-- Counters accumulated by `txbatch.main`, lines 260-264 and 328-333. -/
structure Counters where
  success : Nat
  fail : Nat
  pending : Nat
  not_found : Nat
  mismatch : Nat
deriving DecidableEq

/-- One iteration of the `for txh in tx_hashes` loop of `txbatch.main`,
lines 266-333: not-found and errors on the primary count and skip the
rest; otherwise status decides success/fail and a failed cross-check with
a configured secondary counts a mismatch. -/
def process_one (keccak : Keccak) (p : Provider) (sec : Option Provider)
    (t : Str) (c : Counters) : Counters :=
  match fetch_bundle keccak p t with
  | .error .notFound => { c with not_found := c.not_found + 1 }
  | .error .other => { c with fail := c.fail + 1 }
  | .ok b =>
    let mtch := cross_note keccak sec t b
    let c1 :=
      if b.status = 1 then { c with success := c.success + 1 }
      else { c with fail := c.fail + 1 }
    if !mtch && sec.isSome then { c1 with mismatch := c1.mismatch + 1 }
    else c1

/-- The whole per-transaction loop of `txbatch.main` over the normalized
hash list. -/
def run_batch (keccak : Keccak) (p : Provider) (sec : Option Provider)
    (txs : List Str) : Counters :=
  txs.foldl (fun c t => process_one keccak p sec t c) ⟨0, 0, 0, 0, 0⟩

/-- Exit-code computation of `txbatch.main`, lines 348-359. -/
def exit_code (c : Counters) (secPresent : Bool) (invalid : Nat) : Nat :=
  if 0 < c.mismatch then (if secPresent then 2 else 0)
  else if 0 < c.fail ∨ 0 < c.not_found ∨ 0 < invalid then 1 else 0

/-- `txbatch.main` after the providers are connected, lines 212-359:
de-duplicate the raw hashes (`load_hashes`), return exit code 1 when no
raw or no valid hash remains, otherwise normalize via `parse_tx_hash`
(counting invalid entries), run the loop and compute the exit code.  Note
that the chain ids of the two providers are read and printed but never
compared. -/
def main_run (keccak : Keccak) (p : Provider) (sec : Option Provider)
    (raw : List Str) : Except Nat (Counters × Nat × Nat) :=
  let hashes_raw := dedup raw
  let tx_hashes := hashes_raw.filterMap parse_tx_hash
  let invalid := (hashes_raw.filter (fun r => (parse_tx_hash r).isNone)).length
  if hashes_raw = [] then .error 1
  else if tx_hashes = [] then .error 1
  else
    let c := run_batch keccak p sec tx_hashes
    .ok (c, invalid, exit_code c sec.isSome invalid)

/-- Classifier: the primary fetch succeeded with status 1 (the
`success_count` increment of line 328). -/
def pOk1 (keccak : Keccak) (p : Provider) (t : Str) : Bool :=
  match fetch_bundle keccak p t with
  | .ok b => if b.status = 1 then true else false
  | _ => false

/-- Classifier: the primary fetch succeeded with a status other than 1
(the `fail_count` increment of line 331). -/
def pOkNot1 (keccak : Keccak) (p : Provider) (t : Str) : Bool :=
  match fetch_bundle keccak p t with
  | .ok b => if b.status = 1 then false else true
  | _ => false

/-- Classifier: the primary fetch raised a non-not-found error (the
`fail_count` increment of line 275). -/
def pErr (keccak : Keccak) (p : Provider) (t : Str) : Bool :=
  match fetch_bundle keccak p t with
  | .error .other => true
  | _ => false

/-- Classifier: the primary fetch raised `TransactionNotFound`
(line 271). -/
def pNF (keccak : Keccak) (p : Provider) (t : Str) : Bool :=
  match fetch_bundle keccak p t with
  | .error .notFound => true
  | _ => false

/-- Classifier: a secondary is configured, the primary fetch succeeded,
and the cross-check failed or the secondary fetch failed (the
`mismatch_count` increment of line 333). -/
def pMis (keccak : Keccak) (p : Provider) (sec : Option Provider)
    (t : Str) : Bool :=
  match fetch_bundle keccak p t, sec with
  | .ok b, some q =>
    (match fetch_bundle keccak q t with
     | .ok b2 => !(cross_check b b2)
     | .error _ => true)
  | _, _ => false

end txbatch

namespace txapp

/-- `txapp.build_commitment`, lines 53-62: textually the same derivation
as `txbatch.build_commitment` (left-to-right concatenation of the five
encoded fields, keccak, `"0x"` plus lowercase hex); `none` models a raised
`OverflowError` or `ValueError`. -/
def build_commitment (keccak : Keccak) (chain_id : Int) (tx_hash_hex : Str)
    (block_number status gas_used : Int) : Option Str :=
  match int_to_bytes chain_id 8, fromhex (tx_hash_hex.drop 2),
      int_to_bytes block_number 8, int_to_bytes status 1,
      int_to_bytes gas_used 8 with
  | some a, some b, some c, some d, some e =>
    some ('0' :: 'x' :: bytesToHex (keccak (a ++ b ++ c ++ d ++ e)))
  | _, _, _, _, _ => none

end txapp

namespace auditor

/-- `tx_batch_auditor.validate_tx_hash`, lines 96-103: require the `0x`
start and 66 characters, then require `int(h[2:], 16)` to succeed. -/
def validate_tx_hash (h : Str) : Bool :=
  startsWith0x h && (h.length == 66) && pyIntHex16Ok (h.drop 2)

/-- The pure encoding core of `tx_batch_auditor.build_commitment`,
lines 121-137: encode the five fetched fields (`signed=False`, widths
8, 32, 1, 8), concatenate, keccak, render as lowercase hex. -/
def build_commitment_fields (keccak : Keccak) (chain_id : Int)
    (tx_hash : Str) (block_number status gas_used : Int) : Option Str :=
  match int_to_bytes chain_id 8, fromhex (tx_hash.drop 2),
      int_to_bytes block_number 8, int_to_bytes status 1,
      int_to_bytes gas_used 8 with
  | some chain_bytes, some tx_bytes, some block_bytes, some status_bytes,
      some gas_bytes =>
    some (bytesToHex (keccak (chain_bytes ++ tx_bytes ++ block_bytes ++
      status_bytes ++ gas_bytes)))
  | _, _, _, _, _ => none

/-- One connected provider of `tx_batch_auditor`: its chain id, and per
transaction either the receipt fields (blockNumber, status, gasUsed) or
`none` for a raised exception during `get_transaction_receipt`. -/
structure Provider where
  chain_id : Int
  data : Str → Option (Int × Int × Int)

/-- The dictionary returned by `tx_batch_auditor.build_commitment`,
lines 131-137. -/
structure Commit where
  chainId : Int
  blockNumber : Int
  status : Int
  gasUsed : Int
  commitment : Str
deriving DecidableEq

/-- `tx_batch_auditor.build_commitment`, lines 106-137, for one provider
and transaction: `none` models any raised exception (fetch failure or
`OverflowError` during encoding), which `audit_tx` catches. -/
def build_commitment_run (keccak : Keccak) (p : Provider) (tx : Str) :
    Option Commit :=
  match p.data tx with
  | none => none
  | some (bn, st, gu) =>
    match build_commitment_fields keccak p.chain_id tx bn st gu with
    | none => none
    | some cm => some ⟨p.chain_id, bn, st, gu, cm⟩

/-- The record built by `tx_batch_auditor.audit_tx`, lines 146-154
(timing omitted; `errorPrimary` / `errorSecondary` model whether the
corresponding error string is set). -/
structure AuditResult where
  txHash : Str
  primary : Option Commit
  secondary : Option Commit
  matchField : Option Bool
  errorPrimary : Bool
  errorSecondary : Bool
deriving DecidableEq

/-- `tx_batch_auditor.audit_tx`, lines 140-178: try the primary, try the
secondary when configured, and set `match` only when both dictionaries
are present (`if result["primary"] and result["secondary"]`). -/
def audit_tx (keccak : Keccak) (tx : Str) (p : Provider)
    (s : Option Provider) : AuditResult :=
  let pr := build_commitment_run keccak p tx
  let sr :=
    match s with
    | none => none
    | some q => build_commitment_run keccak q tx
  let m :=
    match pr, sr with
    | some a, some b => some (a.commitment == b.commitment)
    | _, _ => none
  ⟨tx, pr, sr, m, pr.isNone, s.isSome && sr.isNone⟩

/-- Input normalization of `tx_batch_auditor.main`, lines 191-192: strip
each hash, keep the non-empty ones, de-duplicate preserving order. -/
def normalize_hashes (txs : List Str) : List Str :=
  dedup ((txs.map pystrip).filter (fun s => s ≠ []))

/-- The `--max` cap of `tx_batch_auditor.main`, lines 205-206: truncate to
the first `maxN` hashes when `maxN` is positive and exceeded. -/
def cap_hashes (maxN : Nat) (l : List Str) : List Str :=
  if 0 < maxN ∧ maxN < l.length then l.take maxN else l

/-- `tx_batch_auditor.main`, lines 181-235, up to the result list: gather
and normalize hashes, exit 1 when none remain, exit 1 when any is invalid,
cap, then (with two providers) exit 1 on a chain-id mismatch, otherwise
audit every remaining hash in order.  `Except.error` carries the process
exit code. -/
def main_run (keccak : Keccak) (txs : List Str) (maxN : Nat) (p : Provider)
    (s : Option Provider) : Except Nat (List AuditResult) :=
  let hashes := normalize_hashes txs
  if hashes = [] then .error 1
  else if (hashes.filter (fun h => !validate_tx_hash h)) ≠ [] then .error 1
  else
    let capped := cap_hashes maxN hashes
    match s with
    | some q =>
      if p.chain_id ≠ q.chain_id then .error 1
      else .ok (capped.map (fun h => audit_tx keccak h p (some q)))
    | none => .ok (capped.map (fun h => audit_tx keccak h p none))

end auditor

/-! Concrete instances used by witnesses and counterexamples. -/

/-- A concrete stand-in for the external keccak function (witnesses only
need some function of the right type). -/
def kc0 : Keccak := fun _ => []

/-- The canonical 66-character hash `0x` followed by 64 `0` digits. -/
def ch0 : Str := '0' :: 'x' :: List.replicate 64 '0'

/-- A 66-character string that is not a hash: `0x` followed by 64 `z`. -/
def chbad : Str := '0' :: 'x' :: List.replicate 64 'z'

/-- A 66-character string accepted by the auditor's validation though it
is not `0x` plus 64 hex digits: `0x`, a `+` sign, then 63 `0` digits. -/
def chplus : Str := '0' :: 'x' :: '+' :: List.replicate 63 '0'

/-- txbatch provider on chain 1 answering every hash with the receipt
(block 100, status 1, gasUsed 21000). -/
def pB1 : txbatch.Provider := ⟨1, fun _ => .receipt 100 1 21000⟩

/-- txbatch provider identical to `pB1` but reporting chain id 137. -/
def pB137 : txbatch.Provider := ⟨137, fun _ => .receipt 100 1 21000⟩

/-- txbatch provider on chain 1 reporting gasUsed 21001 instead of
21000. -/
def pB1g : txbatch.Provider := ⟨1, fun _ => .receipt 100 1 21001⟩

/-- auditor provider on chain 1 whose fetches all fail. -/
def pA1 : auditor.Provider := ⟨1, fun _ => none⟩

/-- auditor provider on chain 137 whose fetches all fail. -/
def pA137 : auditor.Provider := ⟨137, fun _ => none⟩

/-- A wrapped call that fails with a generic exception on every
attempt. -/
def fex : Nat → txbatch.CallRes Unit := fun _ => .exc (.other 7)

/-- The commitment-relevant fields of a ReceiptBundle, as fetched from
some provider: chain id, tx hash, block number, status, gas used. -/
structure ReceiptFields where
  chainId : Int
  txHash : Str
  blockNumber : Int
  status : Int
  gasUsed : Int

/-! Helper lemmas. -/

theorem beBytes_length (n v : Nat) : (beBytes n v).length = n := by
  induction n generalizing v with
  | zero => rfl
  | succ k ih => simp [beBytes, ih]

theorem int_to_bytes_eq_some (v : Int) (len : Nat)
    (h : 0 ≤ v ∧ v < (256 : Int) ^ len) :
    int_to_bytes v len = some (beBytes len v.toNat) := by
  simp [int_to_bytes, h]

theorem int_to_bytes_eq_none_iff (v : Int) (len : Nat) :
    int_to_bytes v len = none ↔ ¬(0 ≤ v ∧ v < (256 : Int) ^ len) := by
  unfold int_to_bytes
  split <;> simp_all

theorem txapp_eq_txbatch (keccak : Keccak) (cid : Int) (tx : Str)
    (bn st gu : Int) :
    txapp.build_commitment keccak cid tx bn st gu =
      txbatch.build_commitment keccak cid tx bn st gu := by
  unfold txapp.build_commitment txbatch.build_commitment txbatch.payload
  cases int_to_bytes cid 8 <;> cases fromhex (tx.drop 2) <;>
    cases int_to_bytes bn 8 <;> cases int_to_bytes st 1 <;>
    cases int_to_bytes gu 8 <;> rfl

theorem payload_none_iff (cid : Int) (tx : Str) (bn st gu : Int) :
    txbatch.payload cid tx bn st gu = none ↔
      (int_to_bytes cid 8 = none ∨ fromhex (tx.drop 2) = none ∨
        int_to_bytes bn 8 = none ∨ int_to_bytes st 1 = none ∨
        int_to_bytes gu 8 = none) := by
  unfold txbatch.payload
  cases int_to_bytes cid 8 <;> cases fromhex (tx.drop 2) <;>
    cases int_to_bytes bn 8 <;> cases int_to_bytes st 1 <;>
    cases int_to_bytes gu 8 <;> simp

theorem build_commitment_none_iff (keccak : Keccak) (cid : Int) (tx : Str)
    (bn st gu : Int) :
    txbatch.build_commitment keccak cid tx bn st gu = none ↔
      txbatch.payload cid tx bn st gu = none := by
  unfold txbatch.build_commitment
  cases txbatch.payload cid tx bn st gu <;> simp

theorem map_drop_cross (keccak : Keccak) (cid : Int) (tx : Str)
    (bn st gu : Int) :
    Option.map (List.drop 2) (txbatch.build_commitment keccak cid tx bn st gu) =
      auditor.build_commitment_fields keccak cid tx bn st gu := by
  unfold txbatch.build_commitment txbatch.payload
    auditor.build_commitment_fields
  cases int_to_bytes cid 8 <;> cases fromhex (tx.drop 2) <;>
    cases int_to_bytes bn 8 <;> cases int_to_bytes st 1 <;>
    cases int_to_bytes gu 8 <;> rfl

/-! Claim theorems. -/

/-- C1: for every chainId, blockNumber, gasUsed fitting in 64 bits, status
fitting in 1 byte, and a tx hash whose hex part decodes to 32 bytes, each
of the three commitment derivations returns the keccak digest of the
57-byte preimage chainId(8) then txHash(32) then blockNumber(8) then
status(1) then gasUsed(8), big-endian, no delimiters (txbatch and txapp
render it `0x`-prefixed, the auditor unprefixed). -/
theorem C1_layout (keccak : Keccak) (cid bn st gu : Int) (tx : Str)
    (bs : List Byte)
    (hcid : 0 ≤ cid ∧ cid < 2 ^ 64) (hbn : 0 ≤ bn ∧ bn < 2 ^ 64)
    (hst : 0 ≤ st ∧ st < 2 ^ 8) (hgu : 0 ≤ gu ∧ gu < 2 ^ 64)
    (hhex : fromhex (tx.drop 2) = some bs) (hlen : bs.length = 32) :
    (specPreimage cid.toNat bs bn.toNat st.toNat gu.toNat).length = 57 ∧
    txbatch.build_commitment keccak cid tx bn st gu =
      some ('0' :: 'x' :: bytesToHex
        (keccak (specPreimage cid.toNat bs bn.toNat st.toNat gu.toNat))) ∧
    txapp.build_commitment keccak cid tx bn st gu =
      some ('0' :: 'x' :: bytesToHex
        (keccak (specPreimage cid.toNat bs bn.toNat st.toNat gu.toNat))) ∧
    auditor.build_commitment_fields keccak cid tx bn st gu =
      some (bytesToHex
        (keccak (specPreimage cid.toNat bs bn.toNat st.toNat gu.toNat))) := by
  have p8 : ((256 : Int) ^ 8) = 2 ^ 64 := by norm_num
  have p1 : ((256 : Int) ^ 1) = 2 ^ 8 := by norm_num
  have e1 : int_to_bytes cid 8 = some (beBytes 8 cid.toNat) :=
    int_to_bytes_eq_some cid 8 (by rw [p8]; exact hcid)
  have e2 : int_to_bytes bn 8 = some (beBytes 8 bn.toNat) :=
    int_to_bytes_eq_some bn 8 (by rw [p8]; exact hbn)
  have e3 : int_to_bytes st 1 = some (beBytes 1 st.toNat) :=
    int_to_bytes_eq_some st 1 (by rw [p1]; exact hst)
  have e4 : int_to_bytes gu 8 = some (beBytes 8 gu.toNat) :=
    int_to_bytes_eq_some gu 8 (by rw [p8]; exact hgu)
  refine ⟨?_, ?_, ?_, ?_⟩
  · simp [specPreimage, beBytes_length, hlen]
  · unfold txbatch.build_commitment txbatch.payload
    rw [e1, e2, e3, e4, hhex]
    rfl
  · unfold txapp.build_commitment
    rw [e1, e2, e3, e4, hhex]
    rfl
  · unfold auditor.build_commitment_fields
    rw [e1, e2, e3, e4, hhex]
    rfl

/-- Witness for C1 at chainId 1, block 100, status 1, gasUsed 21000 and
the all-zero hash. -/
theorem C1_layout_witness :
    (specPreimage (1 : Int).toNat (List.replicate 32 0) (100 : Int).toNat
        (1 : Int).toNat (21000 : Int).toNat).length = 57 ∧
    txbatch.build_commitment kc0 1 ch0 100 1 21000 =
      some ('0' :: 'x' :: bytesToHex
        (kc0 (specPreimage (1 : Int).toNat (List.replicate 32 0)
          (100 : Int).toNat (1 : Int).toNat (21000 : Int).toNat))) ∧
    txapp.build_commitment kc0 1 ch0 100 1 21000 =
      some ('0' :: 'x' :: bytesToHex
        (kc0 (specPreimage (1 : Int).toNat (List.replicate 32 0)
          (100 : Int).toNat (1 : Int).toNat (21000 : Int).toNat))) ∧
    auditor.build_commitment_fields kc0 1 ch0 100 1 21000 =
      some (bytesToHex
        (kc0 (specPreimage (1 : Int).toNat (List.replicate 32 0)
          (100 : Int).toNat (1 : Int).toNat (21000 : Int).toNat))) :=
  C1_layout kc0 1 100 1 21000 ch0 (List.replicate 32 0)
    (by decide) (by decide) (by decide) (by decide) (by decide) (by decide)

/-- C2: the commitment derivation is deterministic — two receipt bundles
with identical chainId, txHash, blockNumber, status and gasUsed yield
bit-for-bit equal commitments, in each of the three implementations, and
the txbatch/txapp digest agrees with the auditor's digest (whose rendering
merely lacks the `0x` prefix), so the commitment does not depend on which
provider supplied the fields. -/
theorem C2_deterministic (keccak : Keccak) (b1 b2 : ReceiptFields)
    (h1 : b1.chainId = b2.chainId) (h2 : b1.txHash = b2.txHash)
    (h3 : b1.blockNumber = b2.blockNumber) (h4 : b1.status = b2.status)
    (h5 : b1.gasUsed = b2.gasUsed) :
    txbatch.build_commitment keccak b1.chainId b1.txHash b1.blockNumber
        b1.status b1.gasUsed =
      txbatch.build_commitment keccak b2.chainId b2.txHash b2.blockNumber
        b2.status b2.gasUsed ∧
    txapp.build_commitment keccak b1.chainId b1.txHash b1.blockNumber
        b1.status b1.gasUsed =
      txapp.build_commitment keccak b2.chainId b2.txHash b2.blockNumber
        b2.status b2.gasUsed ∧
    auditor.build_commitment_fields keccak b1.chainId b1.txHash
        b1.blockNumber b1.status b1.gasUsed =
      auditor.build_commitment_fields keccak b2.chainId b2.txHash
        b2.blockNumber b2.status b2.gasUsed ∧
    Option.map (List.drop 2)
        (txbatch.build_commitment keccak b1.chainId b1.txHash b1.blockNumber
          b1.status b1.gasUsed) =
      auditor.build_commitment_fields keccak b1.chainId b1.txHash
        b1.blockNumber b1.status b1.gasUsed := by
  rw [h1, h2, h3, h4, h5]
  exact ⟨rfl, rfl, rfl, map_drop_cross keccak b2.chainId b2.txHash
    b2.blockNumber b2.status b2.gasUsed⟩

/-- Witness for C2 at two bundles holding the same concrete fields. -/
theorem C2_deterministic_witness :
    txbatch.build_commitment kc0 (ReceiptFields.mk 1 ch0 100 1 21000).chainId
        (ReceiptFields.mk 1 ch0 100 1 21000).txHash
        (ReceiptFields.mk 1 ch0 100 1 21000).blockNumber
        (ReceiptFields.mk 1 ch0 100 1 21000).status
        (ReceiptFields.mk 1 ch0 100 1 21000).gasUsed =
      txbatch.build_commitment kc0 (ReceiptFields.mk 1 ch0 100 1 21000).chainId
        (ReceiptFields.mk 1 ch0 100 1 21000).txHash
        (ReceiptFields.mk 1 ch0 100 1 21000).blockNumber
        (ReceiptFields.mk 1 ch0 100 1 21000).status
        (ReceiptFields.mk 1 ch0 100 1 21000).gasUsed ∧
    txapp.build_commitment kc0 (ReceiptFields.mk 1 ch0 100 1 21000).chainId
        (ReceiptFields.mk 1 ch0 100 1 21000).txHash
        (ReceiptFields.mk 1 ch0 100 1 21000).blockNumber
        (ReceiptFields.mk 1 ch0 100 1 21000).status
        (ReceiptFields.mk 1 ch0 100 1 21000).gasUsed =
      txapp.build_commitment kc0 (ReceiptFields.mk 1 ch0 100 1 21000).chainId
        (ReceiptFields.mk 1 ch0 100 1 21000).txHash
        (ReceiptFields.mk 1 ch0 100 1 21000).blockNumber
        (ReceiptFields.mk 1 ch0 100 1 21000).status
        (ReceiptFields.mk 1 ch0 100 1 21000).gasUsed ∧
    auditor.build_commitment_fields kc0
        (ReceiptFields.mk 1 ch0 100 1 21000).chainId
        (ReceiptFields.mk 1 ch0 100 1 21000).txHash
        (ReceiptFields.mk 1 ch0 100 1 21000).blockNumber
        (ReceiptFields.mk 1 ch0 100 1 21000).status
        (ReceiptFields.mk 1 ch0 100 1 21000).gasUsed =
      auditor.build_commitment_fields kc0
        (ReceiptFields.mk 1 ch0 100 1 21000).chainId
        (ReceiptFields.mk 1 ch0 100 1 21000).txHash
        (ReceiptFields.mk 1 ch0 100 1 21000).blockNumber
        (ReceiptFields.mk 1 ch0 100 1 21000).status
        (ReceiptFields.mk 1 ch0 100 1 21000).gasUsed ∧
    Option.map (List.drop 2)
        (txbatch.build_commitment kc0
          (ReceiptFields.mk 1 ch0 100 1 21000).chainId
          (ReceiptFields.mk 1 ch0 100 1 21000).txHash
          (ReceiptFields.mk 1 ch0 100 1 21000).blockNumber
          (ReceiptFields.mk 1 ch0 100 1 21000).status
          (ReceiptFields.mk 1 ch0 100 1 21000).gasUsed) =
      auditor.build_commitment_fields kc0
        (ReceiptFields.mk 1 ch0 100 1 21000).chainId
        (ReceiptFields.mk 1 ch0 100 1 21000).txHash
        (ReceiptFields.mk 1 ch0 100 1 21000).blockNumber
        (ReceiptFields.mk 1 ch0 100 1 21000).status
        (ReceiptFields.mk 1 ch0 100 1 21000).gasUsed :=
  C2_deterministic kc0 (ReceiptFields.mk 1 ch0 100 1 21000)
    (ReceiptFields.mk 1 ch0 100 1 21000) rfl rfl rfl rfl rfl

/-- C5 counterexample: the commitment derivation accepts status 2 (a
value other than exactly 0 or 1) and happily returns a digest, refuting
the claim that every such status is rejected as malformed input. -/
theorem C5_counterexample :
    (txbatch.build_commitment kc0 1 ch0 100 2 21000).isSome = true ∧
    (txapp.build_commitment kc0 1 ch0 100 2 21000).isSome = true := by
  exact ⟨by decide, by decide⟩

/-- C5 (amended): the derivation raises exactly when a field does not fit
its encoding width — chainId, blockNumber or gasUsed outside 64 bits
(rejected rather than truncated), status outside one byte (so any status
in 0..255, not just 0 and 1, is accepted), or a hex part that does not
decode — in both txbatch and txapp. -/
theorem C5_reject_ranges (keccak : Keccak) (cid bn st gu : Int) (tx : Str) :
    (txbatch.build_commitment keccak cid tx bn st gu = none ↔
      (¬(0 ≤ cid ∧ cid < 2 ^ 64) ∨ fromhex (tx.drop 2) = none ∨
        ¬(0 ≤ bn ∧ bn < 2 ^ 64) ∨ ¬(0 ≤ st ∧ st < 2 ^ 8) ∨
        ¬(0 ≤ gu ∧ gu < 2 ^ 64))) ∧
    txapp.build_commitment keccak cid tx bn st gu =
      txbatch.build_commitment keccak cid tx bn st gu := by
  have p8 : ((256 : Int) ^ 8) = 2 ^ 64 := by norm_num
  have p1 : ((256 : Int) ^ 1) = 2 ^ 8 := by norm_num
  constructor
  · rw [build_commitment_none_iff, payload_none_iff,
      int_to_bytes_eq_none_iff, int_to_bytes_eq_none_iff,
      int_to_bytes_eq_none_iff, int_to_bytes_eq_none_iff, p8, p1]
  · exact txapp_eq_txbatch keccak cid tx bn st gu

theorem safe_go_spec {α : Type} (func : Nat → txbatch.CallRes α) :
    ∀ left, 1 ≤ left → ∀ attempt,
      1 ≤ (txbatch.safe_go func attempt left).calls ∧
      (txbatch.safe_go func attempt left).calls ≤ left ∧
      (txbatch.safe_go func attempt left).sleeps =
        (txbatch.safe_go func attempt left).calls - 1 ∧
      ∀ e, (txbatch.safe_go func attempt left).result = .raised e →
        (txbatch.safe_go func attempt left).calls = left ∧
        func (attempt + left - 1) = .exc e := by
  intro left
  induction left with
  | zero => intro h; exact absurd h (by omega)
  | succ l ih =>
    intro _ attempt
    cases hf : func attempt with
    | ok a =>
      have hgo : txbatch.safe_go func attempt (l + 1) = ⟨.ok a, 1, 0⟩ := by
        rw [txbatch.safe_go.eq_def, hf]
      rw [hgo]
      dsimp only
      refine ⟨by omega, by omega, rfl, ?_⟩
      intro e' he'
      exact absurd he' (by simp)
    | interrupt =>
      have hgo : txbatch.safe_go func attempt (l + 1) =
          ⟨.interrupt, 1, 0⟩ := by
        rw [txbatch.safe_go.eq_def, hf]
      rw [hgo]
      dsimp only
      refine ⟨by omega, by omega, rfl, ?_⟩
      intro e' he'
      exact absurd he' (by simp)
    | exc e =>
      cases l with
      | zero =>
        have hgo : txbatch.safe_go func attempt 1 = ⟨.raised e, 1, 0⟩ := by
          rw [txbatch.safe_go.eq_def, hf]
        rw [hgo]
        dsimp only
        refine ⟨by omega, by omega, rfl, ?_⟩
        intro e' he'
        have he2 : e = e' := by
          have hx : txbatch.RunRes.raised (α := α) e = .raised e' := he'
          cases hx
          rfl
        refine ⟨rfl, ?_⟩
        have hidx : attempt + 1 - 1 = attempt := by omega
        rw [hidx, hf, he2]
      | succ k =>
        obtain ⟨hc1, hc2, hs, hr⟩ := ih (by omega) (attempt + 1)
        have hgo : txbatch.safe_go func attempt (k + 1 + 1) =
            ⟨(txbatch.safe_go func (attempt + 1) (k + 1)).result,
             (txbatch.safe_go func (attempt + 1) (k + 1)).calls + 1,
             (txbatch.safe_go func (attempt + 1) (k + 1)).sleeps + 1⟩ := by
          rw [txbatch.safe_go.eq_def, hf]
        rw [hgo]
        dsimp only
        refine ⟨by omega, by omega, by omega, ?_⟩
        intro e' he'
        have hthis := hr e' he'
        refine ⟨by omega, ?_⟩
        have hidx : attempt + (k + 1 + 1) - 1 = attempt + 1 + (k + 1) - 1 := by
          omega
        rw [hidx]
        exact hthis.2

/-- C10: for every wrapped function and `retries` at least 1,
`safe_rpc_call` invokes the wrapped function at most `retries` times,
sleeps exactly once between consecutive attempts and never after the last
one (`sleeps = calls - 1`), and when it ends by re-raising an exception
that exception is the one the wrapped function raised on the final,
`retries`-th attempt. -/
theorem C10_retry_bounds {α : Type} (func : Nat → txbatch.CallRes α)
    (retries : Nat) (hr : 1 ≤ retries) :
    1 ≤ (txbatch.safe_rpc_call func retries).calls ∧
    (txbatch.safe_rpc_call func retries).calls ≤ retries ∧
    (txbatch.safe_rpc_call func retries).sleeps =
      (txbatch.safe_rpc_call func retries).calls - 1 ∧
    ∀ e, (txbatch.safe_rpc_call func retries).result = .raised e →
      (txbatch.safe_rpc_call func retries).calls = retries ∧
      func retries = .exc e := by
  have h := safe_go_spec func retries hr 1
  obtain ⟨h1, h2, h3, h4⟩ := h
  refine ⟨h1, h2, h3, ?_⟩
  intro e he
  have := h4 e he
  have hidx : 1 + retries - 1 = retries := by omega
  rw [hidx] at this
  exact this

/-- Witness for C10 at a function that always raises, with the default
three retries: three calls, two sleeps, and the last exception
re-raised. -/
theorem C10_retry_bounds_witness :
    1 ≤ (txbatch.safe_rpc_call fex 3).calls ∧
    (txbatch.safe_rpc_call fex 3).sleeps =
      (txbatch.safe_rpc_call fex 3).calls - 1 ∧
    (txbatch.safe_rpc_call fex 3).calls = 3 ∧
    fex 3 = .exc (.other 7) := by
  have h := C10_retry_bounds fex 3 (by decide)
  exact ⟨h.1, h.2.2.1, (h.2.2.2 (.other 7) rfl).1, (h.2.2.2 (.other 7) rfl).2⟩

/-- C3: the retry executor does not return a not-found result
immediately — a wrapped call that raises `TransactionNotFound` on every
attempt is invoked all 3 times with 2 inter-attempt sleeps before the
exception is finally re-raised, because `safe_rpc_call` catches the broad
`Exception` class, of which `TransactionNotFound` is a subclass. -/
theorem C3_notfound_retried :
    txbatch.safe_rpc_call
        (fun _ => txbatch.CallRes.exc (α := Unit)
          txbatch.Exc.transactionNotFound) 3 =
      ⟨.raised .transactionNotFound, 3, 2⟩ := rfl

/-- C9: in `audit_tx` the `match` field is a boolean exactly when both the
primary and the secondary bundle were built successfully; with no
secondary configured the secondary bundle is `None`, and whenever either
bundle is missing the `match` field stays `None` (so it is never
`False` for an errored or unconfigured provider). -/
theorem C9_match_field (keccak : Keccak) (tx : Str) (p : auditor.Provider)
    (s : Option auditor.Provider) :
    ((auditor.audit_tx keccak tx p s).matchField).isSome =
      ((auditor.audit_tx keccak tx p s).primary.isSome &&
        (auditor.audit_tx keccak tx p s).secondary.isSome) ∧
    (auditor.audit_tx keccak tx p none).secondary = none ∧
    ((auditor.audit_tx keccak tx p s).matchField = none ∨
      ((auditor.audit_tx keccak tx p s).primary.isSome = true ∧
        (auditor.audit_tx keccak tx p s).secondary.isSome = true)) := by
  cases s with
  | none =>
    unfold auditor.audit_tx
    cases hp : auditor.build_commitment_run keccak p tx <;> simp
  | some q =>
    unfold auditor.audit_tx
    cases hp : auditor.build_commitment_run keccak p tx <;>
      cases hq : auditor.build_commitment_run keccak q tx <;> simp [hp, hq]

theorem hexDigit_ranges (c : Char) (h : isHexDigitC c = true) :
    (48 ≤ c.toNat ∧ c.toNat ≤ 57) ∨ (97 ≤ c.toNat ∧ c.toNat ≤ 102) ∨
      (65 ≤ c.toNat ∧ c.toNat ≤ 70) := by
  unfold isHexDigitC hexDigitVal at h
  split_ifs at h with h1 h2 h3
  · exact Or.inl h1
  · exact Or.inr (Or.inl h2)
  · exact Or.inr (Or.inr h3)
  · simp at h

theorem hexDigit_not_ws (c : Char) (h : isHexDigitC c = true) :
    isPyWs c = false := by
  have hr := hexDigit_ranges c h
  unfold isPyWs
  simp only [Bool.or_eq_false_iff, beq_eq_false_iff_ne, ne_eq]
  omega

theorem dropWhile_id_of (p : Char → Bool) (l : Str)
    (h : ∀ c ∈ l, p c = false) : l.dropWhile p = l := by
  cases l with
  | nil => rfl
  | cons a t => simp [List.dropWhile, h a (by simp)]

theorem pystrip_id (l : Str) (h : ∀ c ∈ l, isPyWs c = false) :
    pystrip l = l := by
  unfold pystrip
  rw [dropWhile_id_of _ _ h]
  rw [dropWhile_id_of _ _ (fun c hc => h c (List.mem_reverse.mp hc))]
  exact List.reverse_reverse l

theorem pyHexTail_of_all (l : Str) (h : ∀ c ∈ l, isHexDigitC c = true) :
    pyHexTail l = true := by
  induction l with
  | nil => rfl
  | cons c r ih =>
    have hc := h c (by simp)
    have h95 : ¬(c.toNat = 95) := by
      have := hexDigit_ranges c hc
      omega
    rw [pyHexTail.eq_def]
    dsimp only
    rw [if_neg h95, hc, ih (fun x hx => h x (by simp [hx]))]
    rfl

theorem pyHexDigits_of_all (l : Str) (hne : l ≠ [])
    (h : ∀ c ∈ l, isHexDigitC c = true) : pyHexDigits l = true := by
  cases l with
  | nil => exact absurd rfl hne
  | cons c r =>
    have hc := h c (by simp)
    have h95 : ¬(c.toNat = 95) := by
      have := hexDigit_ranges c hc
      omega
    rw [pyHexDigits.eq_def]
    dsimp only
    rw [if_neg h95, hc, pyHexTail_of_all r (fun x hx => h x (by simp [hx]))]
    rfl

theorem pyIntHex16Ok_of_hex2 (d d1 : Char) (tr : Str)
    (h : ∀ c ∈ d :: d1 :: tr, isHexDigitC c = true) :
    pyIntHex16Ok (d :: d1 :: tr) = true := by
  have hd := h d (by simp)
  have hd1 := h d1 (by simp)
  have hrd := hexDigit_ranges d hd
  have hrd1 := hexDigit_ranges d1 hd1
  have hstrip : pystrip (d :: d1 :: tr) = d :: d1 :: tr :=
    pystrip_id _ (fun c hc => hexDigit_not_ws c (h c hc))
  have hsign : dropSign (d :: d1 :: tr) = d :: d1 :: tr := by
    simp only [dropSign]
    rw [if_neg (show ¬(d.toNat = 43 ∨ d.toNat = 45) by omega)]
  have hmark : dropHexMark (d :: d1 :: tr) = (false, d :: d1 :: tr) := by
    simp only [dropHexMark]
    rw [if_neg
      (show ¬(d.toNat = 48 ∧ (d1.toNat = 120 ∨ d1.toNat = 88)) by omega)]
  simp only [pyIntHex16Ok]
  rw [hstrip, hsign, hmark]
  exact pyHexDigits_of_all _ (by simp) h


/-- C7 counterexample: the string `0x` then `+` then 63 `0` digits is
accepted by the auditor's hash validation although it is not `0x` followed
by 64 hexadecimal characters, refuting the claimed equivalence. -/
theorem C7_counterexample :
    auditor.validate_tx_hash chplus = true ∧
    isCanonicalTxHash chplus = false := by
  exact ⟨by decide, by decide⟩

/-- C7 (amended): every canonical hash — `0x` followed by exactly 64
hexadecimal characters — is accepted, by the auditor's `validate_tx_hash`
and by txbatch's `parse_tx_hash` (which returns it unchanged); but
acceptance is strictly broader than the canonical shape, because the
auditor delegates the hex check to Python's `int(h[2:], 16)` (which also
tolerates a sign, surrounding whitespace, underscores and an inner `0x`
marker) and txbatch also accepts hashes given without the `0x` prefix. -/
theorem C7_accepts_canonical (h : Str) (hc : isCanonicalTxHash h = true) :
    auditor.validate_tx_hash h = true ∧
    txbatch.parse_tx_hash h = some h := by
  cases h with
  | nil => simp [isCanonicalTxHash] at hc
  | cons c0 t0 =>
    cases t0 with
    | nil => simp [isCanonicalTxHash] at hc
    | cons c1 tl =>
      rw [isCanonicalTxHash] at hc
      simp only [Bool.and_eq_true, beq_iff_eq, List.all_eq_true] at hc
      obtain ⟨⟨⟨h0, h1⟩, hlen⟩, hall⟩ := hc
      cases tl with
      | nil => simp at hlen
      | cons d tr =>
        cases tr with
        | nil => simp at hlen
        | cons d1 tr2 =>
          have hall2 : ∀ c ∈ d :: d1 :: tr2, isHexDigitC c = true := hall
          have hsw : startsWith0x (c0 :: c1 :: d :: d1 :: tr2) = true := by
            simp [startsWith0x, h0, h1]
          have hlen66 :
              ((c0 :: c1 :: d :: d1 :: tr2 : Str).length == 66) = true := by
            have hl : (d :: d1 :: tr2 : Str).length = 64 := hlen
            simp only [List.length_cons, List.length_nil] at hl ⊢
            simp only [beq_iff_eq]
            omega
          have hws : ∀ c ∈ (c0 :: c1 :: d :: d1 :: tr2 : Str),
              isPyWs c = false := by
            intro c hcm
            rcases List.mem_cons.mp hcm with rfl | hcm2
            · simp [isPyWs, h0]
            · rcases List.mem_cons.mp hcm2 with rfl | hcm3
              · simp [isPyWs, h1]
              · exact hexDigit_not_ws c (hall2 c hcm3)
          constructor
          · rw [auditor.validate_tx_hash]
            rw [hsw, hlen66]
            have hdrop : ((c0 :: c1 :: d :: d1 :: tr2 : Str).drop 2) =
                d :: d1 :: tr2 := rfl
            rw [hdrop, pyIntHex16Ok_of_hex2 d d1 tr2 hall2]
            rfl
          · rw [txbatch.parse_tx_hash]
            simp only [pystrip_id _ hws]
            rw [if_neg (by simp)]
            rw [hsw]
            simp only [if_true]
            have hih : is_hex (c0 :: c1 :: d :: d1 :: tr2) = true := by
              rw [is_hex]
              rw [if_neg]
              · rw [if_neg (by simp)]
                have hm : ((d :: d1 :: tr2 : Str).all isHexDigitC) = true :=
                  List.all_eq_true.mpr hall2
                simp [h0, h1, hm]
              · intro heq
                have hlg : (pylower (c0 :: c1 :: d :: d1 :: tr2)).length =
                    (['0', 'x'] : Str).length := by rw [heq]
                simp only [pylower, List.length_map, List.length_cons,
                  List.length_nil] at hlg
                omega
            rw [hlen66, hih]
            rfl

/-- Witness for C7 at the all-zero canonical hash. -/
theorem C7_accepts_canonical_witness :
    auditor.validate_tx_hash ch0 = true ∧
    txbatch.parse_tx_hash ch0 = some ch0 :=
  C7_accepts_canonical ch0 (by decide)

theorem ite_toNat (b : Bool) : (if b then 1 else 0) = b.toNat := by
  cases b <;> rfl

theorem process_one_counts (keccak : Keccak) (p : txbatch.Provider)
    (sec : Option txbatch.Provider) (t : Str) (c : txbatch.Counters) :
    txbatch.process_one keccak p sec t c =
      ⟨c.success + (txbatch.pOk1 keccak p t).toNat,
       c.fail + (txbatch.pErr keccak p t).toNat +
         (txbatch.pOkNot1 keccak p t).toNat,
       c.pending,
       c.not_found + (txbatch.pNF keccak p t).toNat,
       c.mismatch + (txbatch.pMis keccak p sec t).toNat⟩ := by
  obtain ⟨cs, cf, cp, cn, cm⟩ := c
  unfold txbatch.process_one txbatch.pOk1 txbatch.pOkNot1 txbatch.pErr
    txbatch.pNF txbatch.pMis
  cases hf : txbatch.fetch_bundle keccak p t with
  | error e =>
    cases e <;> simp
  | ok b =>
    unfold txbatch.cross_note
    cases sec with
    | none =>
      by_cases hs : b.status = 1 <;> simp [hs]
    | some q =>
      cases hg : txbatch.fetch_bundle keccak q t with
      | error e2 =>
        by_cases hs : b.status = 1 <;> simp [hs, hg]
      | ok b2 =>
        cases hcc : txbatch.cross_check b b2 <;>
          by_cases hs : b.status = 1 <;> simp [hs, hcc, hg]

theorem run_batch_go (keccak : Keccak) (p : txbatch.Provider)
    (sec : Option txbatch.Provider) (txs : List Str) :
    ∀ c : txbatch.Counters,
      txs.foldl (fun c t => txbatch.process_one keccak p sec t c) c =
        ⟨c.success + txs.countP (txbatch.pOk1 keccak p),
         c.fail + txs.countP (txbatch.pErr keccak p) +
           txs.countP (txbatch.pOkNot1 keccak p),
         c.pending,
         c.not_found + txs.countP (txbatch.pNF keccak p),
         c.mismatch + txs.countP (txbatch.pMis keccak p sec)⟩ := by
  induction txs with
  | nil =>
    intro c
    obtain ⟨cs, cf, cp, cn, cm⟩ := c
    simp [List.countP_nil]
  | cons t ts ih =>
    intro c
    simp only [List.foldl_cons]
    rw [process_one_counts, ih]
    obtain ⟨cs, cf, cp, cn, cm⟩ := c
    simp only [List.countP_cons, ite_toNat, txbatch.Counters.mk.injEq]
    refine ⟨by omega, by omega, trivial, by omega, by omega⟩

theorem run_batch_counts (keccak : Keccak) (p : txbatch.Provider)
    (sec : Option txbatch.Provider) (txs : List Str) :
    txbatch.run_batch keccak p sec txs =
      ⟨txs.countP (txbatch.pOk1 keccak p),
       txs.countP (txbatch.pErr keccak p) +
         txs.countP (txbatch.pOkNot1 keccak p),
       0,
       txs.countP (txbatch.pNF keccak p),
       txs.countP (txbatch.pMis keccak p sec)⟩ := by
  unfold txbatch.run_batch
  rw [run_batch_go]
  simp

theorem class_partition (keccak : Keccak) (p : txbatch.Provider) (t : Str) :
    (txbatch.pOk1 keccak p t).toNat + (txbatch.pErr keccak p t).toNat +
      (txbatch.pOkNot1 keccak p t).toNat +
      (txbatch.pNF keccak p t).toNat = 1 := by
  unfold txbatch.pOk1 txbatch.pOkNot1 txbatch.pErr txbatch.pNF
  cases hf : txbatch.fetch_bundle keccak p t with
  | error e => cases e <;> simp
  | ok b => by_cases hs : b.status = 1 <;> simp [hs]

theorem run_batch_total (keccak : Keccak) (p : txbatch.Provider)
    (sec : Option txbatch.Provider) (txs : List Str) :
    (txbatch.run_batch keccak p sec txs).success +
      (txbatch.run_batch keccak p sec txs).fail +
      (txbatch.run_batch keccak p sec txs).not_found = txs.length := by
  rw [run_batch_counts]
  dsimp only
  induction txs with
  | nil => simp
  | cons t ts ih =>
    simp only [List.countP_cons, ite_toNat, List.length_cons]
    have hp := class_partition keccak p t
    omega

/-- C8 counterexample: with two providers that agree on chain, block and
status 1 but differ on gasUsed, the single transaction is counted both as
a success and as a mismatch — a status=1 transaction with a cross-provider
mismatch is counted as a success, refuting the claim. -/
theorem C8_counterexample :
    (txbatch.run_batch kc0 pB1 (some pB1g) [ch0]).success = 1 ∧
    (txbatch.run_batch kc0 pB1 (some pB1g) [ch0]).mismatch = 1 := by
  exact ⟨by decide, by decide⟩

/-- C8 (amended): in the txbatch summary, `success` counts the
transactions whose primary fetch succeeded with status 1 (regardless of
any cross-provider mismatch), `failed` counts primary fetch errors plus
fetched transactions with a status other than 1, `not_found` counts
primary `TransactionNotFound`, `mismatch` counts fetched transactions
whose configured secondary disagreed or failed, and `pending` is never
incremented; there is no separate provider-error category. -/
theorem C8_summary_counts (keccak : Keccak) (p : txbatch.Provider)
    (sec : Option txbatch.Provider) (txs : List Str) :
    txbatch.run_batch keccak p sec txs =
      ⟨txs.countP (txbatch.pOk1 keccak p),
       txs.countP (txbatch.pErr keccak p) +
         txs.countP (txbatch.pOkNot1 keccak p),
       0,
       txs.countP (txbatch.pNF keccak p),
       txs.countP (txbatch.pMis keccak p sec)⟩ :=
  run_batch_counts keccak p sec txs

/-- C4 counterexample: a txbatch run with two providers reporting chain
ids 1 and 137 does not terminate with a configuration error — it audits
the transaction (counting it as a success and a cross-check mismatch) and
finishes with exit code 2, so a per-transaction verdict is produced. -/
theorem C4_counterexample :
    txbatch.main_run kc0 pB1 (some pB137) [ch0] =
      Except.ok (⟨1, 0, 0, 0, 1⟩, 0, 2) := rfl

/-- C4 (amended): only the tx_batch_auditor entry point compares the two
providers' chain identities — there it exits with code 1 before any
transaction is audited whenever the chain ids differ; the txbatch entry
point performs no such comparison and produces its per-transaction
verdicts regardless of the chain ids. -/
theorem C4_chain_check :
    (∀ (keccak : Keccak) (txs : List Str) (maxN : Nat)
        (p q : auditor.Provider),
      p.chain_id ≠ q.chain_id →
      auditor.main_run keccak txs maxN p (some q) = Except.error 1) ∧
    (∀ (keccak : Keccak) (p q : txbatch.Provider) (raw : List Str),
      (dedup raw).filterMap txbatch.parse_tx_hash ≠ [] →
      ∃ cnt invalid code,
        txbatch.main_run keccak p (some q) raw =
          Except.ok (cnt, invalid, code) ∧
        0 < cnt.success + cnt.fail + cnt.not_found) := by
  constructor
  · intro keccak txs maxN p q hne
    by_cases h1 : auditor.normalize_hashes txs = []
    · simp [auditor.main_run, h1]
    · by_cases h2 : (auditor.normalize_hashes txs).filter
          (fun h => !auditor.validate_tx_hash h) = []
      · simp [auditor.main_run, h1, h2, hne]
      · simp [auditor.main_run, h1, h2]
  · intro keccak p q raw hne
    have hraw : ¬(dedup raw = []) := by
      intro h0
      rw [h0] at hne
      simp at hne
    unfold txbatch.main_run
    rw [if_neg hraw, if_neg hne]
    refine ⟨_, _, _, rfl, ?_⟩
    rw [run_batch_total]
    exact List.length_pos.mpr hne

/-- Witness for C4 at concrete providers on chains 1 and 137 and the
all-zero hash. -/
theorem C4_chain_check_witness :
    auditor.main_run kc0 [ch0] 0 pA1 (some pA137) = Except.error 1 ∧
    ∃ cnt invalid code,
      txbatch.main_run kc0 pB1 (some pB137) [ch0] =
        Except.ok (cnt, invalid, code) ∧
      0 < cnt.success + cnt.fail + cnt.not_found :=
  ⟨C4_chain_check.1 kc0 [ch0] 0 pA1 pA137 (by decide),
   C4_chain_check.2 kc0 pB1 pB137 [ch0] (by decide)⟩

/-- C6 counterexample: one invalid hash among the inputs makes the
auditor's whole batch exit with code 1 and zero verdicts, although the
de-duplicated, capped hash list still holds 2 entries — so a single
transaction's invalid input does abort the batch and no hash yields a
verdict. -/
theorem C6_counterexample :
    auditor.main_run kc0 [ch0, chbad] 0 pA1 none = Except.error 1 ∧
    (auditor.cap_hashes 0 (auditor.normalize_hashes [ch0, chbad])).length
      = 2 := by
  exact ⟨rfl, rfl⟩

/-- C6 (amended): in tx_batch_auditor, when every de-duplicated hash is
valid (and the chain ids agree when two providers are configured), each
de-duplicated, capped hash yields exactly one audit record and no
per-transaction provider failure aborts the batch, so the verdict count
equals the de-duplicated, capped input count; but a single invalid hash
aborts the whole auditor batch with zero verdicts.  In txbatch, the loop
never aborts: whenever any valid hash remains, the run completes and the
per-transaction counters sum to exactly the number of de-duplicated valid
hashes (invalid ones are skipped and counted separately). -/
theorem C6_isolation :
    (∀ (keccak : Keccak) (txs : List Str) (maxN : Nat)
        (p : auditor.Provider) (s : Option auditor.Provider),
      auditor.normalize_hashes txs ≠ [] →
      (∀ h ∈ auditor.normalize_hashes txs,
        auditor.validate_tx_hash h = true) →
      (∀ q, s = some q → p.chain_id = q.chain_id) →
      auditor.main_run keccak txs maxN p s =
        Except.ok ((auditor.cap_hashes maxN
          (auditor.normalize_hashes txs)).map
            (fun h => auditor.audit_tx keccak h p s)) ∧
      ((auditor.cap_hashes maxN (auditor.normalize_hashes txs)).map
          (fun h => auditor.audit_tx keccak h p s)).length =
        (auditor.cap_hashes maxN (auditor.normalize_hashes txs)).length) ∧
    (∀ (keccak : Keccak) (p : txbatch.Provider)
        (s : Option txbatch.Provider) (raw : List Str),
      (dedup raw).filterMap txbatch.parse_tx_hash ≠ [] →
      ∃ cnt invalid code,
        txbatch.main_run keccak p s raw = Except.ok (cnt, invalid, code) ∧
        cnt.success + cnt.fail + cnt.not_found =
          ((dedup raw).filterMap txbatch.parse_tx_hash).length) := by
  constructor
  · intro keccak txs maxN p s hne hval hchain
    have hfil : (auditor.normalize_hashes txs).filter
        (fun h => !auditor.validate_tx_hash h) = [] := by
      rw [List.filter_eq_nil_iff]
      intro a ha
      rw [hval a ha]
      simp
    unfold auditor.main_run
    rw [if_neg hne, if_neg (by simp [hfil])]
    cases s with
    | none => exact ⟨rfl, List.length_map _ _⟩
    | some q =>
      have hcq := hchain q rfl
      dsimp only
      rw [if_neg (by simp [hcq])]
      exact ⟨rfl, List.length_map _ _⟩
  · intro keccak p s raw hne
    have hraw : ¬(dedup raw = []) := by
      intro h0
      rw [h0] at hne
      simp at hne
    unfold txbatch.main_run
    rw [if_neg hraw, if_neg hne]
    exact ⟨_, _, _, rfl, run_batch_total keccak p s _⟩

/-- Witness for C6 at an all-valid one-hash auditor batch (failing
provider, so the lone verdict records a provider error rather than
aborting) and a one-hash txbatch run. -/
theorem C6_isolation_witness :
    (auditor.main_run kc0 [ch0] 0 pA1 none =
      Except.ok ((auditor.cap_hashes 0
        (auditor.normalize_hashes [ch0])).map
          (fun h => auditor.audit_tx kc0 h pA1 none)) ∧
    ((auditor.cap_hashes 0 (auditor.normalize_hashes [ch0])).map
        (fun h => auditor.audit_tx kc0 h pA1 none)).length =
      (auditor.cap_hashes 0 (auditor.normalize_hashes [ch0])).length) ∧
    ∃ cnt invalid code,
      txbatch.main_run kc0 pB1 none [ch0] =
        Except.ok (cnt, invalid, code) ∧
      cnt.success + cnt.fail + cnt.not_found =
        ((dedup [ch0]).filterMap txbatch.parse_tx_hash).length :=
  ⟨C6_isolation.1 kc0 [ch0] 0 pA1 none (by decide) (by decide)
      (fun q hq => by cases hq),
   C6_isolation.2 kc0 pB1 none [ch0] (by decide)⟩
